import Mathlib

/-!
Shallow embedding of `src/AgentAssistPayClient.js` (npm-agent-pay).

The class `AgentAssistPayClient` is a single-threaded event-driven controller.
Its observable behaviour is deterministic once the outcome of each remote call
(axios POST / sync-map operation) is fixed, so every method is embedded as a
pure function from the pre-state (and the remote outcomes, passed as explicit
parameters) to a `StepResult`: the post-state, the list of events emitted via
`this.emit`, and the list of remote commands issued.

Field-name correspondence with the source:
  `callSid`      ↔ `this.callSid`
  `statusCallback` ↔ `this._statusCallback`
  `paySid`       ↔ `this._paySid`
  `captureOrder` ↔ `this._captureOrder` (the working order)
  `captureOrderTemplate` ↔ `this._captureOrderTemplate`
  `capture`      ↔ `this._capture` (a string; JS truthiness = nonempty)
  `partResult`   ↔ the partial-result flag field of the source (renamed)
  `required`     ↔ `this._required`, modelled as a list of field-kind strings,
                   so `.includes` is membership and `.length` is list length;
                   the constructor's initial `""` is modelled as `[]`.

Telemetry (`this._analytics.track`) never reads or writes controller state and
emits no public event, so it is not modelled. `Date.now()`-based idempotency
keys are time-dependent payload details and are likewise omitted from the
`Command` arguments.
-/

namespace AgentPay

/-- A JavaScript value passed as the `captureOrder` constructor argument:
either a string or an array of strings (the default value is an array). -/
inductive JSVal where
  | str (s : String)
  | arr (xs : List String)
deriving DecidableEq

/-- Events emitted via `this.emit` in the source. -/
inductive Event where
  | callConnected (callSid : String)
  | uuiItemAdded (callSid : String)
  | cardUpdate
  | capturing
  | capturingCard
  | capturingSecurityCode
  | capturingDate
  | captureComplete
  | cardReset
  | securityCodeReset
  | dateReset
  | cancelledCapture
  | submitComplete
  | stopCapturing
deriving DecidableEq

/-- Remote commands issued by the controller: the three axios POSTs
(`/startCapture`, `/updateCaptureType`, `/changeSession`) and the sync-map
item removal performed by `cancelCapture`. -/
inductive Command where
  | startCapture (callSid : Option String) (securityCode postalCode : Bool)
  | updateCaptureType (callSid : Option String) (paySid : String)
      (captureType : Option String)
  | changeSession (callSid : Option String) (paySid : String) (status : String)
  | removePayMapItem (paySid : String)
deriving DecidableEq

/-- The controller's mutable state (the instance fields of the class that the
claims are about). -/
structure PayState where
  functionsURL : String
  callSid : Option String
  statusCallback : String
  paySid : String
  captureOrder : List String
  captureOrderTemplate : List String
  capture : String
  partResult : Bool
  required : List String
deriving DecidableEq

/-- The payload of one `itemUpdated` notification from the progress channel:
`args.item.key` and the `Capture` / `PartialResult` / `Required` fields of
`args.item.data`. -/
structure PayItem where
  key : String
  capture : String
  partResult : Bool
  required : List String
deriving DecidableEq

/-- Result of running one controller method: post-state, events emitted,
remote commands issued (in order). -/
structure StepResult where
  state : PayState
  events : List Event
  commands : List Command
deriving DecidableEq

/-- Split a character list on the comma character (the semantics of JavaScript
`String.prototype.split(",")`): separators delimit chunks, an empty string
yields one empty chunk. -/
def splitCommaAux : List Char → List Char → List (List Char)
  | [], acc => [acc.reverse]
  | c :: cs, acc =>
      if c = ',' then acc.reverse :: splitCommaAux cs []
      else splitCommaAux cs (c :: acc)

/-- JavaScript `s.split(",")` on a string value. -/
def jsSplitComma (s : String) : List String :=
  (splitCommaAux s.toList []).map (fun cs => String.mk cs)

/-- Drop leading whitespace characters. -/
def dropLeadingWS : List Char → List Char
  | [] => []
  | c :: cs => if c.isWhitespace then dropLeadingWS cs else c :: cs

/-- JavaScript `s.trim()`: remove whitespace from both ends. -/
def jsTrim (s : String) : String :=
  String.mk ((dropLeadingWS (dropLeadingWS s.toList).reverse).reverse)

/-- JavaScript `v.split(",")` on the `captureOrder` argument: defined for
strings; on an array (which has no `split` method) it throws a `TypeError`. -/
def jsSplit (v : JSVal) : Except String (List String) :=
  match v with
  | .str s => .ok (jsSplitComma s)
  | .arr _ => .error "TypeError: captureOrder.split is not a function"

/-- The constructor's default `captureOrder` argument: a one-element array
containing a single comma-separated string. -/
def defaultCaptureOrder : JSVal :=
  .arr ["payment-card-number, security-code, expiration-date"]

/-- Line 84 of the source: `captureOrder.split(",").map(item => item.trim())`. -/
def initCaptureTemplate (captureOrder : JSVal) : Except String (List String) :=
  (jsSplit captureOrder).map (fun items => items.map jsTrim)

/-- The constructor: derives the capture-order template and initialises the
instance fields (`callSid = null`, `_paySid = ""`, `_capture = ""`,
`_partialResult = true`, `_required = ""`). Fails when `captureOrder.split`
throws. -/
def initPayState (functionsURL : String) (captureOrder : JSVal) :
    Except String PayState :=
  (initCaptureTemplate captureOrder).map (fun tmpl =>
    { functionsURL := functionsURL
      callSid := none
      statusCallback := ""
      paySid := ""
      captureOrder := tmpl
      captureOrderTemplate := tmpl
      capture := ""
      partResult := true
      required := [] })

/-- The method `_updateCaptureType(captureType)`: posts `/updateCaptureType`
(always issued, with the current `callSid`/`_paySid`), and on success emits the
field-specific capturing event selected by the `switch`; the `catch` only logs,
so the state is unchanged either way. `ok` is the outcome of the POST. -/
def updateCaptureType (ok : Bool) (s : PayState) (captureType : Option String) :
    StepResult :=
  { state := s
    events :=
      if ok then
        match captureType with
        | some "payment-card-number" => [Event.capturingCard]
        | some "security-code" => [Event.capturingSecurityCode]
        | some "expiration-date" => [Event.capturingDate]
        | _ => []
      else []
    commands := [Command.updateCaptureType s.callSid s.paySid captureType] }

/-- Line 194 of the source: `this._required.includes(this._captureOrder[0])`;
on an empty order `_captureOrder[0]` is `undefined`, which is never an element
of a list of field-kind strings. -/
def requiredIncludesFront (s : PayState) : Bool :=
  match s.captureOrder.head? with
  | some f => s.required.contains f
  | none => false

/-- The method `_checkPayProgress()`: if `_capture` is truthy, hold when the
required set still contains the front field; else if the required set is
non-empty, `shift()` the order and `_updateCaptureType` the new front; else
emit `captureComplete`. `updOk` is the outcome of the `/updateCaptureType`
POST on the advancing path. -/
def checkPayProgress (updOk : Bool) (s : PayState) : StepResult :=
  if s.capture ≠ "" then
    if requiredIncludesFront s then
      { state := s, events := [], commands := [] }
    else if s.required.length > 0 then
      let s2 := { s with captureOrder := s.captureOrder.tail }
      updateCaptureType updOk s2 s2.captureOrder.head?
    else
      { state := s, events := [Event.captureComplete], commands := [] }
  else
    { state := s, events := [], commands := [] }

/-- The `itemUpdated` handler installed by `attachPay` (lines 167–181):
unconditionally overwrites `_paySid` with the item key and the snapshot fields
with the item data, emits `cardUpdate`, then runs `_checkPayProgress()`. -/
def itemUpdated (updOk : Bool) (s : PayState) (item : PayItem) : StepResult :=
  let s2 := { s with paySid := item.key, capture := item.capture,
                     partResult := item.partResult, required := item.required }
  let r := checkPayProgress updOk s2
  { state := r.state, events := Event.cardUpdate :: r.events,
    commands := r.commands }

/-- The method `_changeSession(changeType)`: first resets `_captureOrder` to a
copy of the template, then posts `/changeSession`; the `catch` only logs, so
the result does not depend on the POST outcome `_ok`. -/
def changeSession (_ok : Bool) (s : PayState) (changeType : String) :
    StepResult :=
  let s2 := { s with captureOrder := s.captureOrderTemplate }
  { state := s2
    events := []
    commands := [Command.changeSession s2.callSid s2.paySid changeType] }

/-- The method `startCapture()`: resets `_captureOrder` to the template, posts
`/startCapture` (with the security-code / postal-code flags computed from the
freshly reset order); on success (`startResult = some paySid`) stores the
returned `paySid`, emits `capturing` and calls `_updateCaptureType` on the
order's front; on failure the `catch` only logs. -/
def startCapture (startResult : Option String) (updOk : Bool) (s : PayState) :
    StepResult :=
  let s2 := { s with captureOrder := s.captureOrderTemplate }
  let startCmd := Command.startCapture s2.callSid
      (s2.captureOrder.contains "security-code")
      (s2.captureOrder.contains "postal-code")
  match startResult with
  | some paySid =>
      let s3 := { s2 with paySid := paySid }
      let r := updateCaptureType updOk s3 s3.captureOrder.head?
      { state := r.state, events := Event.capturing :: r.events,
        commands := startCmd :: r.commands }
  | none =>
      { state := s2, events := [], commands := [startCmd] }

/-- The method `resetCard()`: if `_captureOrder[0] === "payment-card-number"`
do nothing, else `unshift` it and emit `cardReset`; in both cases call
`_updateCaptureType(this._captureOrder[0])`. -/
def resetCard (updOk : Bool) (s : PayState) : StepResult :=
  let s2 := if s.captureOrder.head? = some "payment-card-number" then s
            else { s with captureOrder := "payment-card-number" :: s.captureOrder }
  let evs : List Event :=
    if s.captureOrder.head? = some "payment-card-number" then []
    else [Event.cardReset]
  let r := updateCaptureType updOk s2 s2.captureOrder.head?
  { state := r.state, events := evs ++ r.events, commands := r.commands }

/-- The method `resetSecurityCode()`: same shape as `resetCard` for
`"security-code"`. -/
def resetSecurityCode (updOk : Bool) (s : PayState) : StepResult :=
  let s2 := if s.captureOrder.head? = some "security-code" then s
            else { s with captureOrder := "security-code" :: s.captureOrder }
  let evs : List Event :=
    if s.captureOrder.head? = some "security-code" then []
    else [Event.securityCodeReset]
  let r := updateCaptureType updOk s2 s2.captureOrder.head?
  { state := r.state, events := evs ++ r.events, commands := r.commands }

/-- The method `resetDate()`: same shape as `resetCard` for
`"expiration-date"`. -/
def resetDate (updOk : Bool) (s : PayState) : StepResult :=
  let s2 := if s.captureOrder.head? = some "expiration-date" then s
            else { s with captureOrder := "expiration-date" :: s.captureOrder }
  let evs : List Event :=
    if s.captureOrder.head? = some "expiration-date" then []
    else [Event.dateReset]
  let r := updateCaptureType updOk s2 s2.captureOrder.head?
  { state := r.state, events := evs ++ r.events, commands := r.commands }

/-- The method `submitCapture()`: `await this._changeSession("complete")`, then
emit `submitComplete` (unconditionally — `_changeSession` catches its own
errors). `ok` is the outcome of the `/changeSession` POST. -/
def submitCapture (ok : Bool) (s : PayState) : StepResult :=
  let r := changeSession ok s "complete"
  { state := r.state, events := r.events ++ [Event.submitComplete],
    commands := r.commands }

/-- The method `cancelCapture()`: `await this._changeSession("cancel")`, then
try to remove the sync-map item keyed by `_paySid`; on removal success emit
`cancelledCapture`, on failure only log. `changeOk` / `removeOk` are the two
remote outcomes. -/
def cancelCapture (changeOk removeOk : Bool) (s : PayState) : StepResult :=
  let r := changeSession changeOk s "cancel"
  { state := r.state
    events := if removeOk then [Event.cancelledCapture] else []
    commands := r.commands ++ [Command.removePayMapItem r.state.paySid] }

/-- Result of `attachPay`: post-state, events, whether the `itemUpdated`
subscription on the pay map was installed, and whether an error propagated to
the caller of `attachPay` (its returned promise rejecting). -/
structure AttachResult where
  state : PayState
  events : List Event
  subscribed : Bool
  errorToCaller : Bool
deriving DecidableEq

/-- The method `attachPay(callSid)`: stores `callSid` and `_statusCallback`
before the `try` block; inside the `try` it creates the sync client, opens the
`payMap`, emits `callConnected` when a call SID was supplied (otherwise
subscribes to the `uuiMap`), and installs the `itemUpdated` handler. `mapOk` is
the outcome of the sync setup inside the `try`; the `catch` only logs
(`console.error`), so no error ever reaches the caller. -/
def attachPay (mapOk : Bool) (s : PayState) (callSid : Option String) :
    AttachResult :=
  let s2 := { s with callSid := callSid,
                     statusCallback := s.functionsURL ++ "/paySyncUpdate" }
  if mapOk then
    match callSid with
    | some sid =>
        { state := s2, events := [Event.callConnected sid],
          subscribed := true, errorToCaller := false }
    | none =>
        { state := s2, events := [], subscribed := true,
          errorToCaller := false }
  else
    { state := s2, events := [], subscribed := false, errorToCaller := false }

/-- The method `updateCallSid(callSid)`: rebinds the call SID and emits
`callConnected`. -/
def updateCallSid (s : PayState) (callSid : String) : StepResult :=
  { state := { s with callSid := some callSid }
    events := [Event.callConnected callSid]
    commands := [] }

/-- Is a command a `setActiveField` (an `/updateCaptureType` POST)? -/
def isSetActiveField : Command → Bool
  | Command.updateCaptureType _ _ _ => true
  | _ => false

/-- A concrete functions URL used by the concrete executions below. -/
def demoURL : String := "https://pay.example.twil.io"

/-- The controller state right after construction with the three-field
capture-order string (as produced by `initPayState`). -/
def dupInit : PayState :=
  { functionsURL := demoURL, callSid := none, statusCallback := "", paySid := ""
    captureOrder := ["payment-card-number", "security-code", "expiration-date"]
    captureOrderTemplate :=
      ["payment-card-number", "security-code", "expiration-date"]
    capture := "", partResult := true, required := [] }

/-- `dupInit` after `attachPay("CA7")` and a successful `startCapture()`
returning pay SID `"PA7"`. -/
def dupCapturing : PayState :=
  (startCapture (some "PA7") true (attachPay true dupInit (some "CA7")).state).state

/-- `dupCapturing` after a progress notification reporting the card number
captured: the working order has advanced to
`["security-code", "expiration-date"]`. -/
def dupAdvanced : PayState :=
  (itemUpdated true dupCapturing
    { key := "PA7", capture := "payment-card-number", partResult := false
      required := ["security-code", "expiration-date"] }).state

/-- The controller state right after construction with a single-field
capture-order string `"payment-card-number"`. -/
def soloInit : PayState :=
  { functionsURL := demoURL, callSid := none, statusCallback := "", paySid := ""
    captureOrder := ["payment-card-number"]
    captureOrderTemplate := ["payment-card-number"]
    capture := "", partResult := true, required := [] }

/-- `soloInit` after `attachPay("CA1")` and a successful `startCapture()`
returning pay SID `"PA1"`. -/
def soloCapturing : PayState :=
  (startCapture (some "PA1") true (attachPay true soloInit (some "CA1")).state).state

/-- A notification for `soloCapturing` whose non-empty required set does not
contain the sole remaining field. -/
def soloItem : PayItem :=
  { key := "PA1", capture := "payment-card-number", partResult := false
    required := ["security-code"] }

/-- A notification whose key differs from `dupCapturing`'s current pay SID
`"PA7"` — a stale-session notification. -/
def staleDemoItem : PayItem :=
  { key := "PA_stale", capture := "payment-card-number", partResult := true
    required := ["payment-card-number"] }

/-- C9: a reachable state exists (built here through `initPayState`,
`attachPay`, `startCapture`, then one notification) where capture is in
progress, the working order holds exactly one field, and a notification with a
non-empty required set not containing that field arrives: `_checkPayProgress`
removes the last element, leaving the order empty, and still issues a
`setActiveField` (`/updateCaptureType`) command whose field argument is the
front of the empty order (`none`/undefined), while emitting no field-specific
capturing event. -/
theorem c9_empty_front_setActiveField :
    initPayState demoURL (JSVal.str "payment-card-number")
        = Except.ok soloInit ∧
    soloCapturing.captureOrder = ["payment-card-number"] ∧
    soloItem.capture ≠ "" ∧
    (itemUpdated true soloCapturing soloItem).state.captureOrder = [] ∧
    (itemUpdated true soloCapturing soloItem).commands
        = [Command.updateCaptureType (some "CA1") "PA1" none] ∧
    (itemUpdated true soloCapturing soloItem).events = [Event.cardUpdate] := by
  refine ⟨rfl, by decide, by decide, by decide, by decide, by decide⟩

/-- C10: the constructor derives the template with
`captureOrder.split(",").map(trim)`, defined only for strings; every array
argument — in particular the default value, a one-element array — makes
construction fail with a `TypeError` before the template is initialised, so a
client with the default capture order can never be constructed. String
arguments succeed, split on commas and trimmed. -/
theorem c10_constructor_default_fails :
    defaultCaptureOrder
        = JSVal.arr ["payment-card-number, security-code, expiration-date"] ∧
    (∀ url xs, initPayState url (JSVal.arr xs)
        = Except.error "TypeError: captureOrder.split is not a function") ∧
    (∀ url, initPayState url defaultCaptureOrder
        = Except.error "TypeError: captureOrder.split is not a function") ∧
    (∀ url s, initPayState url (JSVal.str s)
        = Except.ok
            { functionsURL := url, callSid := none, statusCallback := ""
              paySid := "", captureOrder := (jsSplitComma s).map jsTrim
              captureOrderTemplate := (jsSplitComma s).map jsTrim
              capture := "", partResult := true, required := [] }) :=
  ⟨rfl, fun _ _ => rfl, fun _ => rfl, fun _ _ => rfl⟩

/-- C1 counterexample: a notification whose key `"PA_stale"` differs from the
current pay SID `"PA7"` is not discarded — it overwrites the stored pay SID
and emits an event. -/
theorem c1_counterexample :
    staleDemoItem.key ≠ dupCapturing.paySid ∧
    (itemUpdated true dupCapturing staleDemoItem).state.paySid
        ≠ dupCapturing.paySid ∧
    (itemUpdated true dupCapturing staleDemoItem).events ≠ [] := by
  decide

/-- C2 counterexample: from the mid-capture state `dupAdvanced` (working order
`["security-code", "expiration-date"]`), a `startCapture` whose remote call
fails, and a `submitCapture` whose remote call fails, both leave the working
order different from its pre-call value (it has been reset to the template
before the call). -/
theorem c2_counterexample :
    (startCapture none true dupAdvanced).state.captureOrder
        ≠ dupAdvanced.captureOrder ∧
    (submitCapture false dupAdvanced).state.captureOrder
        ≠ dupAdvanced.captureOrder := by
  decide

/-- C3 counterexample: from the mid-capture state `dupAdvanced`, a successful
`submitCapture` does not leave the working order as it was — `_changeSession`
resets it to the template. -/
theorem c3_counterexample :
    (submitCapture true dupAdvanced).state.captureOrder
        ≠ dupAdvanced.captureOrder := by
  decide

/-- C5 counterexample: from the reachable duplicate-free state `dupAdvanced`
(working order `["security-code", "expiration-date"]`), `resetDate()` prepends
`"expiration-date"` although it is already present (not at the front),
producing a duplicate entry. -/
theorem c5_counterexample :
    dupAdvanced.captureOrder = ["security-code", "expiration-date"] ∧
    dupAdvanced.captureOrder.Nodup ∧
    (resetDate true dupAdvanced).state.captureOrder
        = ["expiration-date", "security-code", "expiration-date"] ∧
    ¬ (resetDate true dupAdvanced).state.captureOrder.Nodup := by
  decide

/-- C8 counterexample: when the sync setup inside `attachPay` fails, the error
is not surfaced to the caller (the `catch` only logs), and the call SID has
already been stored on the instance. -/
theorem c8_counterexample :
    (attachPay false dupInit (some "CA8")).errorToCaller = false ∧
    (attachPay false dupInit (some "CA8")).state.callSid = some "CA8" := by
  decide

/-- Frame property of `_checkPayProgress`: it only ever touches the working
capture order; every other field of the state is preserved. -/
theorem checkPayProgress_state_frame (updOk : Bool) (s : PayState) :
    (checkPayProgress updOk s).state.paySid = s.paySid ∧
    (checkPayProgress updOk s).state.capture = s.capture ∧
    (checkPayProgress updOk s).state.partResult = s.partResult ∧
    (checkPayProgress updOk s).state.required = s.required ∧
    (checkPayProgress updOk s).state.callSid = s.callSid ∧
    (checkPayProgress updOk s).state.captureOrderTemplate
        = s.captureOrderTemplate := by
  unfold checkPayProgress
  repeat' split
  all_goals exact ⟨rfl, rfl, rfl, rfl, rfl, rfl⟩

/-- C1 amended: the `itemUpdated` handler applies every notification
unconditionally — including stale ones whose session key differs from the
current pay SID: it overwrites the pay SID with the notification's key,
replaces the snapshot fields with the notification's data, emits `cardUpdate`
first, and runs the progress check; stale notifications are never discarded. -/
theorem c1_stale_notifications_applied (updOk : Bool) (s : PayState)
    (item : PayItem) (hstale : item.key ≠ s.paySid) :
    (itemUpdated updOk s item).state.paySid = item.key ∧
    (itemUpdated updOk s item).state.capture = item.capture ∧
    (itemUpdated updOk s item).state.partResult = item.partResult ∧
    (itemUpdated updOk s item).state.required = item.required ∧
    (itemUpdated updOk s item).state.paySid ≠ s.paySid ∧
    (itemUpdated updOk s item).events.head? = some Event.cardUpdate := by
  have h := checkPayProgress_state_frame updOk
    { s with paySid := item.key, capture := item.capture,
             partResult := item.partResult, required := item.required }
  refine ⟨h.1, h.2.1, h.2.2.1, h.2.2.2.1, ?_, rfl⟩
  have hk : (itemUpdated updOk s item).state.paySid = item.key := h.1
  rw [hk]
  exact hstale

/-- C1 witness: the general theorem applied to the stale notification
`staleDemoItem` arriving at `dupCapturing`. -/
theorem c1_stale_notifications_applied_witness :
    staleDemoItem.key ≠ dupCapturing.paySid ∧
    ((itemUpdated true dupCapturing staleDemoItem).state.paySid
        = staleDemoItem.key ∧
     (itemUpdated true dupCapturing staleDemoItem).state.capture
        = staleDemoItem.capture ∧
     (itemUpdated true dupCapturing staleDemoItem).state.partResult
        = staleDemoItem.partResult ∧
     (itemUpdated true dupCapturing staleDemoItem).state.required
        = staleDemoItem.required ∧
     (itemUpdated true dupCapturing staleDemoItem).state.paySid
        ≠ dupCapturing.paySid ∧
     (itemUpdated true dupCapturing staleDemoItem).events.head?
        = some Event.cardUpdate) :=
  ⟨by decide,
   c1_stale_notifications_applied true dupCapturing staleDemoItem (by decide)⟩

/-- C2 amended: when a remote call fails, the exception is caught and logged
and the stored pay SID is unchanged, but the working capture order is not
restored to its pre-call value: `startCapture`, `submitCapture` and
`cancelCapture` reset it to the template before issuing the remote call, and
the reset methods mutate the order before their `_updateCaptureType` call, so
those mutations persist when the call fails. -/
theorem c2_state_on_remote_failure (updOk removeOk : Bool) (s : PayState) :
    (startCapture none updOk s).state.paySid = s.paySid ∧
    (startCapture none updOk s).state.captureOrder = s.captureOrderTemplate ∧
    (startCapture none updOk s).events = [] ∧
    (submitCapture false s).state.paySid = s.paySid ∧
    (submitCapture false s).state.captureOrder = s.captureOrderTemplate ∧
    (cancelCapture false removeOk s).state.paySid = s.paySid ∧
    (cancelCapture false removeOk s).state.captureOrder
        = s.captureOrderTemplate ∧
    (resetCard false s).state = (resetCard true s).state ∧
    (resetSecurityCode false s).state = (resetSecurityCode true s).state ∧
    (resetDate false s).state = (resetDate true s).state :=
  ⟨rfl, rfl, rfl, rfl, rfl, rfl, rfl, rfl, rfl, rfl⟩

/-- C3 amended: `submitCapture` issues the change-status(complete) remote
command and emits `submitComplete`, but — through `_changeSession` — it resets
the working capture order to a copy of the template; the order is left as it
was only when it already equals the template. All other state fields are
unchanged. -/
theorem c3_submitCapture_resets_order (ok : Bool) (s : PayState) :
    (submitCapture ok s).state
        = { s with captureOrder := s.captureOrderTemplate } ∧
    (submitCapture ok s).events = [Event.submitComplete] ∧
    (submitCapture ok s).commands
        = [Command.changeSession s.callSid s.paySid "complete"] ∧
    ((submitCapture ok s).state.captureOrder = s.captureOrder ↔
        s.captureOrderTemplate = s.captureOrder) :=
  ⟨rfl, rfl, rfl, Iff.rfl⟩

/-- Helper: `_updateCaptureType` never emits `captureComplete`, whatever the
POST outcome and capture type. -/
theorem captureComplete_not_mem_update (ok : Bool) (s : PayState)
    (t : Option String) :
    Event.captureComplete ∉ (updateCaptureType ok s t).events := by
  unfold updateCaptureType
  cases ok
  · simp
  · simp only [if_true]
    split <;> simp

/-- C4: progress-check determinism. With capture in progress and active field
`F` at the front of the working order, `_checkPayProgress` advances (removes
`F` and issues a `setActiveField` command for the new front) iff `F ∉ R` and
`R ≠ ∅`; it emits `captureComplete` iff `R = ∅`; and when `F ∈ R` it holds,
changing no state and issuing no command. -/
theorem c4_progress_check_deterministic (updOk : Bool) (s : PayState)
    (F : String) (rest : List String)
    (hcap : s.capture ≠ "") (horder : s.captureOrder = F :: rest) :
    (((checkPayProgress updOk s).state.captureOrder = rest ∧
        (checkPayProgress updOk s).commands
          = [Command.updateCaptureType s.callSid s.paySid rest.head?])
      ↔ (F ∉ s.required ∧ s.required ≠ [])) ∧
    (Event.captureComplete ∈ (checkPayProgress updOk s).events
      ↔ s.required = []) ∧
    (F ∈ s.required →
      checkPayProgress updOk s = { state := s, events := [], commands := [] }) := by
  have hfront : requiredIncludesFront s = s.required.contains F := by
    simp [requiredIncludesFront, horder]
  by_cases hF : F ∈ s.required
  · have hc : requiredIncludesFront s = true := by
      rw [hfront]; exact List.elem_iff.mpr hF
    have hr : checkPayProgress updOk s
        = { state := s, events := [], commands := [] } := by
      simp [checkPayProgress, hcap, hc]
    have hRne : s.required ≠ [] := by
      intro h0; rw [h0] at hF; exact (List.not_mem_nil F) hF
    rw [hr]
    refine ⟨?_, ?_, fun _ => rfl⟩
    · simp [horder, hF]
    · simp [hRne]
  · have hc : requiredIncludesFront s = false := by
      rw [hfront]
      exact Bool.not_eq_true _ ▸ fun hcon => hF (List.elem_iff.mp hcon)
    by_cases hR : s.required = []
    · have hr : checkPayProgress updOk s
          = { state := s, events := [Event.captureComplete], commands := [] } := by
        simp [checkPayProgress, hcap, hc, hR]
      rw [hr]
      refine ⟨?_, by simp [hR], fun hcon => absurd hcon hF⟩
      simp [horder, hR]
    · have hlen : s.required.length > 0 := List.length_pos.mpr hR
      have hr : checkPayProgress updOk s
          = updateCaptureType updOk { s with captureOrder := rest } rest.head? := by
        simp [checkPayProgress, hcap, hc, hlen, horder]
      rw [hr]
      refine ⟨?_, ?_, fun hcon => absurd hcon hF⟩
      · simp [updateCaptureType, hF, hR]
      · constructor
        · intro hmem
          exact absurd hmem (captureComplete_not_mem_update updOk _ _)
        · intro h0; exact absurd h0 hR

/-- C4 witness: the determinism theorem applied to the reachable mid-capture
state `dupAdvanced` (front `"security-code"`, required set containing it). -/
theorem c4_progress_check_deterministic_witness :
    dupAdvanced.capture ≠ "" ∧
    dupAdvanced.captureOrder = "security-code" :: ["expiration-date"] ∧
    ((((checkPayProgress true dupAdvanced).state.captureOrder
          = ["expiration-date"] ∧
        (checkPayProgress true dupAdvanced).commands
          = [Command.updateCaptureType dupAdvanced.callSid dupAdvanced.paySid
              (some "expiration-date")])
      ↔ ("security-code" ∉ dupAdvanced.required ∧ dupAdvanced.required ≠ [])) ∧
     (Event.captureComplete ∈ (checkPayProgress true dupAdvanced).events
      ↔ dupAdvanced.required = []) ∧
     ("security-code" ∈ dupAdvanced.required →
      checkPayProgress true dupAdvanced
        = { state := dupAdvanced, events := [], commands := [] })) :=
  ⟨by decide, by decide,
   c4_progress_check_deterministic true dupAdvanced "security-code"
     ["expiration-date"] (by decide) (by decide)⟩

/-- Helper: duplicate-freedom of the conditional prepend performed by the
reset methods (`unshift` guarded by a front check only). -/
theorem nodup_if_head (f : String) (l : List String) (h : l.Nodup) :
    (if l.head? = some f then l else f :: l).Nodup
      ↔ (f ∈ l → l.head? = some f) := by
  by_cases hf : l.head? = some f
  · simp [hf, h]
  · rw [if_neg hf]
    simp only [List.nodup_cons, h, and_true]
    exact ⟨fun hn hm => absurd hm hn, fun hi hm => hf (hi hm)⟩

/-- The working order after `resetCard()` as a conditional prepend. -/
theorem resetCard_state_captureOrder (updOk : Bool) (s : PayState) :
    (resetCard updOk s).state.captureOrder =
      if s.captureOrder.head? = some "payment-card-number" then s.captureOrder
      else "payment-card-number" :: s.captureOrder := by
  by_cases h : s.captureOrder.head? = some "payment-card-number" <;>
    simp [resetCard, updateCaptureType, h]

/-- The working order after `resetSecurityCode()` as a conditional prepend. -/
theorem resetSecurityCode_state_captureOrder (updOk : Bool) (s : PayState) :
    (resetSecurityCode updOk s).state.captureOrder =
      if s.captureOrder.head? = some "security-code" then s.captureOrder
      else "security-code" :: s.captureOrder := by
  by_cases h : s.captureOrder.head? = some "security-code" <;>
    simp [resetSecurityCode, updateCaptureType, h]

/-- The working order after `resetDate()` as a conditional prepend. -/
theorem resetDate_state_captureOrder (updOk : Bool) (s : PayState) :
    (resetDate updOk s).state.captureOrder =
      if s.captureOrder.head? = some "expiration-date" then s.captureOrder
      else "expiration-date" :: s.captureOrder := by
  by_cases h : s.captureOrder.head? = some "expiration-date" <;>
    simp [resetDate, updateCaptureType, h]

/-- C5 amended: on a duplicate-free working order, the template reset (in
`_changeSession` / `startCapture`, given a duplicate-free template) and the
advance (`shift`) preserve duplicate-freedom, but each reset method checks
only the front element before `unshift`: its result is duplicate-free iff the
prepended field is absent from the order or already at the front — prepending
a field present in the order but not at the front produces a duplicate
entry. -/
theorem c5_prepend_duplicates (updOk : Bool) (s : PayState)
    (h : s.captureOrder.Nodup) :
    ((resetCard updOk s).state.captureOrder.Nodup ↔
        ("payment-card-number" ∈ s.captureOrder →
          s.captureOrder.head? = some "payment-card-number")) ∧
    ((resetSecurityCode updOk s).state.captureOrder.Nodup ↔
        ("security-code" ∈ s.captureOrder →
          s.captureOrder.head? = some "security-code")) ∧
    ((resetDate updOk s).state.captureOrder.Nodup ↔
        ("expiration-date" ∈ s.captureOrder →
          s.captureOrder.head? = some "expiration-date")) ∧
    s.captureOrder.tail.Nodup ∧
    (s.captureOrderTemplate.Nodup →
      (changeSession updOk s "cancel").state.captureOrder.Nodup ∧
      (startCapture none updOk s).state.captureOrder.Nodup) := by
  refine ⟨?_, ?_, ?_, h.tail, fun ht => ⟨ht, ht⟩⟩
  · rw [resetCard_state_captureOrder]; exact nodup_if_head _ _ h
  · rw [resetSecurityCode_state_captureOrder]; exact nodup_if_head _ _ h
  · rw [resetDate_state_captureOrder]; exact nodup_if_head _ _ h

/-- C5 witness: the amended nodup characterisation applied to the reachable
state `dupAdvanced`. -/
theorem c5_prepend_duplicates_witness :
    dupAdvanced.captureOrder.Nodup ∧
    (((resetCard true dupAdvanced).state.captureOrder.Nodup ↔
        ("payment-card-number" ∈ dupAdvanced.captureOrder →
          dupAdvanced.captureOrder.head? = some "payment-card-number")) ∧
     ((resetSecurityCode true dupAdvanced).state.captureOrder.Nodup ↔
        ("security-code" ∈ dupAdvanced.captureOrder →
          dupAdvanced.captureOrder.head? = some "security-code")) ∧
     ((resetDate true dupAdvanced).state.captureOrder.Nodup ↔
        ("expiration-date" ∈ dupAdvanced.captureOrder →
          dupAdvanced.captureOrder.head? = some "expiration-date")) ∧
     dupAdvanced.captureOrder.tail.Nodup ∧
     (dupAdvanced.captureOrderTemplate.Nodup →
       (changeSession true dupAdvanced "cancel").state.captureOrder.Nodup ∧
       (startCapture none true dupAdvanced).state.captureOrder.Nodup)) :=
  ⟨by decide, c5_prepend_duplicates true dupAdvanced (by decide)⟩

/-- C6: for a configured template `F :: rest` (non-empty, duplicate-free), a
successful `startCapture()` leaves the working order equal to the template and
issues exactly one `setActiveField` (`/updateCaptureType`) command, whose
argument is the template's first element. -/
theorem c6_startCapture_template (updOk : Bool) (s : PayState)
    (paySid F : String) (rest : List String)
    (hT : s.captureOrderTemplate = F :: rest)
    (_hnodup : s.captureOrderTemplate.Nodup) :
    (startCapture (some paySid) updOk s).state.captureOrder
        = s.captureOrderTemplate ∧
    ((startCapture (some paySid) updOk s).commands.filter isSetActiveField)
        = [Command.updateCaptureType s.callSid paySid (some F)] := by
  refine ⟨rfl, ?_⟩
  simp [startCapture, updateCaptureType, isSetActiveField, hT]

/-- C6 witness: the theorem applied to the freshly constructed state
`dupInit` with its three-field template. -/
theorem c6_startCapture_template_witness :
    dupInit.captureOrderTemplate
        = "payment-card-number" :: ["security-code", "expiration-date"] ∧
    dupInit.captureOrderTemplate.Nodup ∧
    ((startCapture (some "PA9") true dupInit).state.captureOrder
        = dupInit.captureOrderTemplate ∧
     ((startCapture (some "PA9") true dupInit).commands.filter isSetActiveField)
        = [Command.updateCaptureType dupInit.callSid "PA9"
            (some "payment-card-number")]) :=
  ⟨by decide, by decide,
   c6_startCapture_template true dupInit "PA9" "payment-card-number"
     ["security-code", "expiration-date"] (by decide) (by decide)⟩

/-- C7: calling `resetCard()` when `"payment-card-number"` is already at the
front of the working order changes no state and emits no `cardReset` event,
but still issues the `setActiveField` (`/updateCaptureType`) command for the
card-number field. -/
theorem c7_resetCard_idempotent (updOk : Bool) (s : PayState)
    (h : s.captureOrder.head? = some "payment-card-number") :
    (resetCard updOk s).state = s ∧
    Event.cardReset ∉ (resetCard updOk s).events ∧
    (resetCard updOk s).commands
        = [Command.updateCaptureType s.callSid s.paySid
            (some "payment-card-number")] := by
  refine ⟨?_, ?_, ?_⟩
  · simp [resetCard, updateCaptureType, h]
  · cases updOk <;> simp [resetCard, updateCaptureType, h]
  · simp [resetCard, updateCaptureType, h]

/-- C7 witness: the idempotence theorem applied to `dupInit`, whose working
order starts with the card-number field. -/
theorem c7_resetCard_idempotent_witness :
    dupInit.captureOrder.head? = some "payment-card-number" ∧
    ((resetCard true dupInit).state = dupInit ∧
     Event.cardReset ∉ (resetCard true dupInit).events ∧
     (resetCard true dupInit).commands
        = [Command.updateCaptureType dupInit.callSid dupInit.paySid
            (some "payment-card-number")]) :=
  ⟨by decide, c7_resetCard_idempotent true dupInit (by decide)⟩

/-- C8 amended: when the sync setup inside `attachPay` fails, no
`callConnected` event is emitted and the `itemUpdated` subscription is not
installed, but the call SID and the status callback have already been stored;
the error is caught and logged inside `attachPay` and never reaches the
caller. -/
theorem c8_attach_failure_swallowed (s : PayState) (callSid : Option String) :
    (attachPay false s callSid).errorToCaller = false ∧
    (attachPay false s callSid).subscribed = false ∧
    (attachPay false s callSid).events = [] ∧
    (attachPay false s callSid).state.callSid = callSid ∧
    (attachPay false s callSid).state.statusCallback
        = s.functionsURL ++ "/paySyncUpdate" :=
  ⟨rfl, rfl, rfl, rfl, rfl⟩

end AgentPay
